import Mathlib

/-!
Verification of the per-call session pipeline of ghophp/call-me-help.

The Go sources are shallowly embedded: every definition below is a direct
translation of a named function of the repository (file and line references
are given in the doc comments).  Go buffered channels become `BQueue`
(a capacity plus the list of buffered items, oldest first); Go pointer
identity becomes an allocation tag threaded through the registry state;
wall-clock instants become natural numbers counting milliseconds; fallible
external engine calls become `Except`-valued oracle parameters.
-/

namespace CallMeHelp

/-- Audio bytes are abstracted as natural numbers. -/
abbrev Byte := Nat

/-- A Go buffered channel of capacity `cap` holding `items` (oldest first). -/
structure BQueue (α : Type) where
  cap : Nat
  items : List α
deriving DecidableEq

/-- Non-blocking send, Go `select { case ch <- x: ... default: ... }`:
if the buffer has room the item is appended and the flag is `true`,
otherwise the queue is unchanged and the flag is `false`. -/
def BQueue.trySend {α : Type} (q : BQueue α) (a : α) : BQueue α × Bool :=
  if q.items.length < q.cap then ({ q with items := q.items ++ [a] }, true)
  else (q, false)

/-- Non-blocking receive, Go `select { case x := <-ch: ... default: ... }`. -/
def BQueue.tryRecv {α : Type} (q : BQueue α) : BQueue α × Option α :=
  match q.items with
  | [] => (q, none)
  | a :: rest => ({ q with items := rest }, some a)

/-! ## Conversation history store
Embedded from `src/unnamed/part_008` (services/conversation.go):
`Message`, `Conversation`, `ConversationService`, `GetOrCreateConversation`,
`AddUserMessage`, `AddTherapistMessage`, `GetFormattedHistory`. -/

/-- A message in the conversation (part_008 lines 9-13). -/
structure Message where
  Role : String
  Content : String
deriving DecidableEq

/-- A therapy conversation (part_008 lines 15-20).  `tag` models Go pointer
identity: two `Conversation` values are the same heap instance exactly when
their tags agree. -/
structure Conversation where
  ID : String
  tag : Nat
  Messages : List Message
deriving DecidableEq

/-- `Conversation.AddUserMessage` (part_008 lines 61-69). -/
def Conversation.AddUserMessage (c : Conversation) (content : String) : Conversation :=
  { c with Messages := c.Messages ++ [{ Role := "user", Content := content }] }

/-- `Conversation.AddTherapistMessage` (part_008 lines 72-80). -/
def Conversation.AddTherapistMessage (c : Conversation) (content : String) : Conversation :=
  { c with Messages := c.Messages ++ [{ Role := "therapist", Content := content }] }

/-- `Conversation.GetFormattedHistory` (part_008 lines 83-97): one
role-prefixed line per recorded message, in order. -/
def Conversation.GetFormattedHistory (c : Conversation) : List String :=
  c.Messages.map (fun msg =>
    if msg.Role = "user" then "User: " ++ msg.Content else "Therapist: " ++ msg.Content)

/-- The conversation registry (part_008 lines 22-27).  The Go map becomes a
function to `Option`; `nextTag` supplies fresh identities for allocations. -/
structure ConversationService where
  conversations : String → Option Conversation
  nextTag : Nat

/-- A fresh `ConversationService` (part_008 lines 30-38). -/
def ConversationService.new : ConversationService :=
  { conversations := fun _ => none, nextTag := 0 }

/-- `ConversationService.GetOrCreateConversation` (part_008 lines 41-58):
returns the stored conversation when present, otherwise allocates a fresh
empty one and stores it. -/
def ConversationService.GetOrCreateConversation (c : ConversationService) (id : String) :
    ConversationService × Conversation :=
  match c.conversations id with
  | some conv => (c, conv)
  | none =>
    let conv : Conversation := { ID := id, tag := c.nextTag, Messages := [] }
    ({ conversations := fun s => if s = id then some conv else c.conversations s,
       nextTag := c.nextTag + 1 }, conv)

/-- Mutation of a conversation obtained from the registry happens through a Go
pointer, so it is visible in the registry map; this helper models
`conv.AddUserMessage(content)` for the conversation registered under `id`. -/
def ConversationService.AddUserMessage (c : ConversationService) (id content : String) :
    ConversationService :=
  { c with conversations := fun s =>
      if s = id then (c.conversations id).map (fun conv => conv.AddUserMessage content)
      else c.conversations s }

/-! ## Text-to-speech
Embedded from `src/services/text_to_speech.go` lines 42-90 (and the identical
logic of the logger variant at lines 140-193). -/

/-- The response object of the engine: `AudioContent` is `none` for a Go nil slice. -/
structure TTSResponse where
  AudioContent : Option (List Byte)

/-- `TextToSpeechService.SynthesizeSpeech` (text_to_speech.go lines 42-90).
`api` is the outcome of the external `client.SynthesizeSpeech` call: an
error, or a possibly-nil response (`none` models `resp == nil`).  On success
with nil or empty audio content the function returns the empty slice and no
error; the error case is propagated unchanged. -/
def SynthesizeSpeech (api : Except Unit (Option TTSResponse)) : Except Unit (List Byte) :=
  match api with
  | .error e => .error e
  | .ok resp =>
    match resp with
    | none => .ok []
    | some r =>
      match r.AudioContent with
      | none => .ok []
      | some content => if content.length = 0 then .ok [] else .ok content

/-! ## Reply generation
Embedded from `src/services/gemini.go` lines 104-169. -/

/-- A reply candidate: its content parts, each a text. -/
structure GenCandidate where
  Parts : List String

/-- The successful response of the reply engine: a list of candidates. -/
structure GenResponse where
  Candidates : List GenCandidate

/-- Fallback used by `GenerateResponse` when the engine returns no candidates
or no parts (gemini.go lines 150 and 157). -/
def geminiEmptyFallback : String :=
  "I\u0027m sorry, I couldn\u0027t generate a response. Could you please rephrase your question?"

/-- `GeminiService.GenerateResponse` (gemini.go lines 104-169), with the
external `model.GenerateContent` call abstracted as `api`.  An engine error is
propagated; no candidates or an empty parts list yields the fixed fallback;
otherwise the first part of the first candidate is returned. -/
def GenerateResponse (api : Except Unit GenResponse) : Except Unit String :=
  match api with
  | .error e => .error e
  | .ok resp =>
    match resp.Candidates with
    | [] => .ok geminiEmptyFallback
    | c :: _ =>
      match c.Parts with
      | [] => .ok geminiEmptyFallback
      | p :: _ => .ok p

/-! ## Session registry and audio ingestion
Embedded from `src/unnamed/part_005` (services/channel_manager.go, current
revision) lines 13-187; the queue construction and the `CreateChannels` /
`GetChannels` / `RemoveChannels` bodies coincide with
`src/services/channel_manager.go` lines 40-82 up to the channel capacities
(100/10/10/10 there, 1024 each in part_005); the capacities are irrelevant to
the claims, the cited older file is followed here. -/

/-- `ChannelData` (part_005 lines 13-23 / channel_manager.go lines 12-23):
the per-call session.  `tag` models Go pointer identity; `audioBuffer` is the
archival `bytes.Buffer` of the part_004 revision. -/
structure ChannelData where
  tag : Nat
  CallSID : String
  AudioInputChan : BQueue (List Byte)
  TranscriptionChan : BQueue String
  ResponseTextChan : BQueue String
  ResponseAudioChan : BQueue (List Byte)
  audioBuffer : List Byte
  isProcessingAudio : Bool

/-- `ChannelManager` (part_005 lines 26-30): the registry map becomes a
function to `Option`; `nextTag` supplies fresh identities. -/
structure ChannelManager where
  channels : String → Option ChannelData
  nextTag : Nat

/-- `NewChannelManager` (part_005 lines 33-40). -/
def ChannelManager.new : ChannelManager :=
  { channels := fun _ => none, nextTag := 0 }

/-- `ChannelManager.CreateChannels` (channel_manager.go lines 40-58 /
part_005 lines 43-60): allocates a fresh `ChannelData` with empty queues and
stores it under `callSID`, replacing any prior entry. -/
def ChannelManager.CreateChannels (cm : ChannelManager) (callSID : String) :
    ChannelManager × ChannelData :=
  let ch : ChannelData :=
    { tag := cm.nextTag
      CallSID := callSID
      AudioInputChan := { cap := 100, items := [] }
      TranscriptionChan := { cap := 10, items := [] }
      ResponseTextChan := { cap := 10, items := [] }
      ResponseAudioChan := { cap := 10, items := [] }
      audioBuffer := []
      isProcessingAudio := false }
  ({ channels := fun s => if s = callSID then some ch else cm.channels s,
     nextTag := cm.nextTag + 1 }, ch)

/-- `ChannelManager.GetChannels` (channel_manager.go lines 61-72 /
part_005 lines 63-74). -/
def ChannelManager.GetChannels (cm : ChannelManager) (callSID : String) :
    Option ChannelData :=
  cm.channels callSID

/-- `ChannelManager.RemoveChannels` (channel_manager.go lines 75-82 /
part_005 lines 77-84). -/
def ChannelManager.RemoveChannels (cm : ChannelManager) (callSID : String) :
    ChannelManager :=
  { cm with channels := fun s => if s = callSID then none else cm.channels s }

/-- Stores an updated `ChannelData` back under its id: Go mutates the
channel record through a pointer, so the registry map sees the update. -/
def ChannelManager.setChannels (cm : ChannelManager) (callSID : String)
    (ch : ChannelData) : ChannelManager :=
  { cm with channels := fun s => if s = callSID then some ch else cm.channels s }

/-- Typed outcomes of `StartAudioProcessing` (part_005 lines 116 and 124). -/
inductive StartAudioError where
  | noChannels
  | alreadyInProgress
  | sttError
deriving DecidableEq

/-- One forwarding step of the transcription forwarding goroutine spawned by
`StartAudioProcessing` (part_005 lines 153-160): a non-blocking send onto
`TranscriptionChan`; on a full queue the fragment is dropped with a warning. -/
def forwardTranscriptionToChan (q : BQueue String) (transcription : String) :
    BQueue String :=
  (q.trySend transcription).1

/-- The transcription forwarding goroutine body (part_005 lines 143-165):
drains the incoming recognizer fragments in order, forwarding each with the
non-blocking send. -/
def forwardTranscriptions (incoming : List String) (q : BQueue String) :
    BQueue String :=
  incoming.foldl forwardTranscriptionToChan q

/-- `ChannelManager.StartAudioProcessing` (part_005 lines 111-169).  `stt` is
the outcome of the external `stt.StreamingRecognize` call (`.ok` stands for
the opened stream).  The returned `Nat` counts the goroutines spawned by this
call (the transcription forwarder).  Unknown id and already-active ingestion
return typed errors without spawning anything; the already-active branch
leaves the whole registry state unchanged. -/
def ChannelManager.StartAudioProcessing (cm : ChannelManager) (callSID : String)
    (stt : Except Unit Unit) :
    Except StartAudioError Unit × ChannelManager × Nat :=
  match cm.GetChannels callSID with
  | none => (.error .noChannels, cm, 0)
  | some ch =>
    if ch.isProcessingAudio then (.error .alreadyInProgress, cm, 0)
    else
      let cm1 := cm.setChannels callSID { ch with isProcessingAudio := true }
      match stt with
      | .error _ => (.error .sttError, cm1, 0)
      | .ok _ => (.ok (), cm1, 1)

/-- The retry loop of `ChannelData.AppendAudioData` (part_004 lines 264-284),
one constructor argument per remaining attempt (3 at the start): try a
non-blocking send; on a full queue, while attempts remain, try to discard the
oldest buffered frame to make room and retry, and on the last attempt drop
the new frame. -/
def appendAudioRetry (data : List Byte) :
    Nat → BQueue (List Byte) → BQueue (List Byte)
  | 0, q => q
  | n + 1, q =>
    match q.trySend data with
    | (q1, true) => q1
    | (_, false) =>
      if 0 < n then appendAudioRetry data n (q.tryRecv).1
      else q

/-- `ChannelData.AppendAudioData` (part_004 lines 245-285): empty frames are
skipped; otherwise the frame is appended to the archival buffer and enqueued
onto `AudioInputChan` with the 3-attempt retry loop. -/
def ChannelData.AppendAudioData (cd : ChannelData) (data : List Byte) : ChannelData :=
  if data.length = 0 then cd
  else
    { cd with
      audioBuffer := cd.audioBuffer ++ data
      AudioInputChan := appendAudioRetry data 3 cd.AudioInputChan }

/-! ## Utterance segmentation
Embedded from `src/handlers/twilio.go` lines 204-592 (identically
`src/unnamed/part_015` lines 51-339): `TranscriptionBuffer` and the
segmentation loop of `processTranscriptionsAndResponses`.  Instants are
milliseconds since the session started. -/

/-- `TranscriptionBuffer` (twilio.go lines 204-211). -/
structure TranscriptionBuffer where
  LastActivity : Nat
  Transcriptions : List String
  LastTranscript : String
  ProcessingSince : Nat
  IsProcessing : Bool

/-- `NewTranscriptionBuffer` (twilio.go lines 213-219), created at `now`. -/
def NewTranscriptionBuffer (now : Nat) : TranscriptionBuffer :=
  { LastActivity := now
    Transcriptions := []
    LastTranscript := ""
    ProcessingSince := 0
    IsProcessing := false }

/-- `TranscriptionBuffer.AddTranscription` (twilio.go lines 221-226). -/
def TranscriptionBuffer.AddTranscription (tb : TranscriptionBuffer) (now : Nat)
    (transcription : String) : TranscriptionBuffer :=
  { tb with
    LastActivity := now
    Transcriptions := tb.Transcriptions ++ [transcription]
    LastTranscript := transcription }

/-- `TranscriptionBuffer.ShouldProcess` (twilio.go lines 228-233):
not already finalizing, non-empty buffer, and strictly more than
`silence` ms elapsed since the last activity. -/
def TranscriptionBuffer.ShouldProcess (tb : TranscriptionBuffer) (now silence : Nat) :
    Bool :=
  !tb.IsProcessing && decide (0 < tb.Transcriptions.length) &&
    decide (silence < now - tb.LastActivity)

/-- `TranscriptionBuffer.StartProcessing` (twilio.go lines 235-239). -/
def TranscriptionBuffer.StartProcessing (tb : TranscriptionBuffer) (now : Nat) :
    TranscriptionBuffer :=
  { tb with ProcessingSince := now, IsProcessing := true }

/-- `TranscriptionBuffer.FinishProcessing` (twilio.go lines 241-245). -/
def TranscriptionBuffer.FinishProcessing (tb : TranscriptionBuffer) :
    TranscriptionBuffer :=
  { tb with Transcriptions := [], IsProcessing := false }

/-- `TranscriptionBuffer.NormalizeTranscriptions` (twilio.go lines 247-260):
the most recent fragment, trimmed of surrounding whitespace; empty string for
an empty buffer. -/
def TranscriptionBuffer.NormalizeTranscriptions (tb : TranscriptionBuffer) : String :=
  match tb.Transcriptions.getLast? with
  | none => ""
  | some t => t.trim

/-- The silence threshold configured at twilio.go line 546: 2 seconds. -/
def silenceDuration : Nat := 2000

/-- An event observed by the segmentation loop select (twilio.go lines
549-591): a 500 ms ticker tick, or a fragment delivered on
`TranscriptionChan`. -/
inductive WSEvent where
  | tick
  | fragment (text : String)

/-- One iteration of the segmentation loop (twilio.go lines 549-591).  On a
tick, if `ShouldProcess` holds the buffer is finalized: marked processing,
normalized (the finalization the loop hands to `processTranscription` when
non-empty), and cleared; the produced `(now, normalized)` pairs record the
finalizations.  A fragment is ignored when empty (twilio.go lines 582-585)
and otherwise accumulated. -/
def segStep (tb : TranscriptionBuffer) (now : Nat) :
    WSEvent → TranscriptionBuffer × List (Nat × String)
  | .tick =>
    if tb.ShouldProcess now silenceDuration then
      let tb1 := tb.StartProcessing now
      let normalized := tb1.NormalizeTranscriptions
      (tb1.FinishProcessing, [(now, normalized)])
    else (tb, [])
  | .fragment t =>
    if t = "" then (tb, [])
    else (tb.AddTranscription now t, [])

/-- Runs the segmentation loop over a timestamped event trace, collecting the
finalizations in order. -/
def runSeg (tb : TranscriptionBuffer) : List (Nat × WSEvent) → List (Nat × String)
  | [] => []
  | (now, e) :: rest =>
    let (tb1, out) := segStep tb now e
    out ++ runSeg tb1 rest

/-- `n` ticker ticks every 500 ms starting at `t0`. -/
def ticksFrom (t0 : Nat) : Nat → List (Nat × WSEvent)
  | 0 => []
  | n + 1 => (t0, WSEvent.tick) :: ticksFrom (t0 + 500) n

/-- The trace of the silence-threshold scenario: a fragment at t=0, ticks at
500 and 1000, a fragment at t=1500, ticks every 500 ms from 1500 through
4000, and `n` further ticks with no more fragments. -/
def silenceScenario (s1 s2 : String) (n : Nat) : List (Nat × WSEvent) :=
  [(0, WSEvent.fragment s1), (500, WSEvent.tick), (1000, WSEvent.tick),
   (1500, WSEvent.fragment s2)] ++ ticksFrom 1500 6 ++ ticksFrom 4500 n

/-! ## Response orchestration
Embedded from `src/handlers/twilio.go` lines 594-667 (`processTranscription`). -/

/-- Fallback substituted when reply generation fails (twilio.go line 621). -/
def geminiErrorFallback : String :=
  "I\u0027m sorry, I\u0027m having trouble understanding right now. Could you please repeat that?"

/-- The reply used for this turn (twilio.go lines 615-624): the generated
response, or the fixed fallback when the reply engine call errs. -/
def responseText (gemini : Except Unit String) : String :=
  match gemini with
  | .error _ => geminiErrorFallback
  | .ok r => r

/-- The non-blocking publication of the reply text (twilio.go lines 632-637):
drop with a log when `ResponseTextChan` is full. -/
def sendResponseTextToChan (q : BQueue String) (response : String) : BQueue String :=
  (q.trySend response).1

/-- The non-blocking hand-off of synthesized audio to playback (twilio.go
lines 661-666): drop with a log when `ResponseAudioChan` is full. -/
def sendResponseAudioToChan (q : BQueue (List Byte)) (audioData : List Byte) :
    BQueue (List Byte) :=
  (q.trySend audioData).1

/-- The per-session state read and written by one orchestration turn. -/
structure OrchState where
  conversation : Conversation
  ResponseTextChan : BQueue String
  ResponseAudioChan : BQueue (List Byte)
deriving DecidableEq

/-- `processTranscription` (twilio.go lines 594-667) for one finalized
utterance.  `gemini` and `tts` are the outcomes of the two external engine
calls; `saveOk` is the outcome of `SaveAudioToFile` (ignored: saving is
non-critical).  The caller turn is recorded, the reply (or fallback) is
recorded and published non-blockingly; on a synthesis error the function
returns with the audio queue untouched, otherwise the audio is handed to
playback non-blockingly. -/
def processTranscription (transcription : String) (gemini : Except Unit String)
    (tts : Except Unit (List Byte)) (_saveOk : Bool) (st : OrchState) : OrchState :=
  let conv1 := st.conversation.AddUserMessage transcription
  let response := responseText gemini
  let conv2 := conv1.AddTherapistMessage response
  let textQ := sendResponseTextToChan st.ResponseTextChan response
  match tts with
  | .error _ =>
    { conversation := conv2, ResponseTextChan := textQ,
      ResponseAudioChan := st.ResponseAudioChan }
  | .ok audioData =>
    { conversation := conv2, ResponseTextChan := textQ,
      ResponseAudioChan := sendResponseAudioToChan st.ResponseAudioChan audioData }

/-- The segmentation loop handing finalized utterances to
`processTranscription` one at a time, in finalization order (twilio.go lines
556-574): each list entry is one utterance with the outcomes of its external
calls. -/
def processUtterances
    (turns : List (String × Except Unit String × Except Unit (List Byte) × Bool))
    (st : OrchState) : OrchState :=
  turns.foldl (fun s t => processTranscription t.1 t.2.1 t.2.2.1 t.2.2.2 s) st

/-! ## Playback chunking
Embedded from `src/handlers/twilio.go` lines 671-766 (`sendAudioResponses`). -/

/-- The maximum chunk size (twilio.go line 675). -/
def maxChunkSize : Nat := 3200

/-- The chunks of one synthesized payload, in emission order (twilio.go lines
722-760): a payload of at most `maxChunkSize` bytes is sent as a single
chunk; a larger one is cut into `⌈len/maxChunkSize⌉` consecutive slices
`[i*maxChunkSize, min((i+1)*maxChunkSize, len))`. -/
def sendAudioChunks (audioData : List Byte) : List (List Byte) :=
  if audioData.length ≤ maxChunkSize then [audioData]
  else
    let totalChunks := (audioData.length + maxChunkSize - 1) / maxChunkSize
    (List.range totalChunks).map
      (fun i => (audioData.drop (i * maxChunkSize)).take maxChunkSize)

/-- The remove-then-create scenario for the registry-identity claim: create
the session for id `CA`, get-or-create its conversation, record the user
message `hi` through it, remove the session, and create it again.  Returns
the conversation registry and the channel registry after these steps. -/
def registryScenario : ConversationService × ChannelManager :=
  let p1 := ChannelManager.new.CreateChannels "CA"
  let q1 := ConversationService.new.GetOrCreateConversation "CA"
  let cs2 := q1.1.AddUserMessage "CA" "hi"
  let cm2 := p1.1.RemoveChannels "CA"
  let p3 := cm2.CreateChannels "CA"
  (cs2, p3.1)

/-! ## Theorems -/

/-- C9: History formatting and order: for every conversation,
`AddUserMessage "hi"` followed by `AddTherapistMessage "hello"` on an empty
history yields `["User: hi", "Therapist: hello"]`; in general
`GetFormattedHistory` returns one role-prefixed string per recorded message,
in append order, user messages prefixed with `User: ` and therapist messages
with `Therapist: `. -/
theorem C9_history_format_and_order (c : Conversation) :
    (c.Messages = [] →
      ((c.AddUserMessage "hi").AddTherapistMessage "hello").GetFormattedHistory
        = ["User: hi", "Therapist: hello"]) ∧
    ((c.AddUserMessage "hi").AddTherapistMessage "hello").GetFormattedHistory
      = c.GetFormattedHistory ++ ["User: hi", "Therapist: hello"] ∧
    c.GetFormattedHistory.length = c.Messages.length ∧
    (∀ s, (c.AddUserMessage s).GetFormattedHistory
      = c.GetFormattedHistory ++ ["User: " ++ s]) ∧
    (∀ s, (c.AddTherapistMessage s).GetFormattedHistory
      = c.GetFormattedHistory ++ ["Therapist: " ++ s]) ∧
    (∀ (i : Nat) (m : Message), c.Messages[i]? = some m →
      c.GetFormattedHistory[i]?
        = some (if m.Role = "user" then "User: " ++ m.Content
                else "Therapist: " ++ m.Content)) := by
  refine ⟨?_, ?_, ?_, ?_, ?_, ?_⟩
  · intro h
    simp [Conversation.AddUserMessage, Conversation.AddTherapistMessage,
      Conversation.GetFormattedHistory, h]
  · simp [Conversation.AddUserMessage, Conversation.AddTherapistMessage,
      Conversation.GetFormattedHistory]
  · simp [Conversation.GetFormattedHistory]
  · intro s
    simp [Conversation.AddUserMessage, Conversation.GetFormattedHistory]
  · intro s
    simp [Conversation.AddTherapistMessage, Conversation.GetFormattedHistory]
  · intro i m h
    simp [Conversation.GetFormattedHistory, List.getElem?_map, h]

/-- Witness for C9 at concrete inputs. -/
theorem C9_history_format_and_order_witness :
    ((({ ID := "CA", tag := 0, Messages := [] } : Conversation).AddUserMessage
        "hi").AddTherapistMessage "hello").GetFormattedHistory
      = ["User: hi", "Therapist: hello"] ∧
    ({ ID := "CA", tag := 0,
       Messages := [{ Role := "user", Content := "yo" }] } : Conversation
      ).GetFormattedHistory[0]? = some ("User: " ++ "yo") :=
  ⟨(C9_history_format_and_order { ID := "CA", tag := 0, Messages := [] }).1 rfl,
   (C9_history_format_and_order
      { ID := "CA", tag := 0,
        Messages := [{ Role := "user", Content := "yo" }] }).2.2.2.2.2 0
      { Role := "user", Content := "yo" } rfl⟩

/-- C10: Empty synthesized audio is success, not error: when the engine call
succeeds but the response is nil, has nil audio content, or has empty audio
content, `SynthesizeSpeech` returns the empty byte slice with no error; a
nonempty content is returned as is; an error is returned exactly when the
engine call itself fails. -/
theorem C10_empty_audio_is_success (api : Except Unit (Option TTSResponse)) :
    (∀ e, api = .error e → SynthesizeSpeech api = .error e) ∧
    (api = .ok none → SynthesizeSpeech api = .ok []) ∧
    (∀ r, api = .ok (some r) → r.AudioContent = none → SynthesizeSpeech api = .ok []) ∧
    (∀ r, api = .ok (some r) → r.AudioContent = some [] → SynthesizeSpeech api = .ok []) ∧
    (∀ r a, api = .ok (some r) → r.AudioContent = some a → a ≠ [] →
      SynthesizeSpeech api = .ok a) ∧
    (∀ e, SynthesizeSpeech api = .error e → api = .error e) := by
  refine ⟨?_, ?_, ?_, ?_, ?_, ?_⟩
  · intro e h; simp [h, SynthesizeSpeech]
  · intro h; simp [h, SynthesizeSpeech]
  · intro r h hc; simp [h, SynthesizeSpeech, hc]
  · intro r h hc; simp [h, SynthesizeSpeech, hc]
  · intro r a h hc ha
    have : a.length ≠ 0 := by simpa [List.length_eq_zero] using ha
    simp [h, SynthesizeSpeech, hc, this]
  · intro e h
    match hapi : api with
    | .error e1 => simp [SynthesizeSpeech, hapi] at h; simp [hapi, h]
    | .ok none => simp [SynthesizeSpeech, hapi] at h
    | .ok (some r) =>
      match hc : r.AudioContent with
      | none => simp [SynthesizeSpeech, hapi, hc] at h
      | some content =>
        by_cases hlen : content.length = 0 <;>
          simp [SynthesizeSpeech, hapi, hc, hlen] at h

/-- Witness for C10 at concrete inputs. -/
theorem C10_empty_audio_is_success_witness :
    SynthesizeSpeech (.ok (some { AudioContent := some [] })) = .ok [] ∧
    SynthesizeSpeech (.ok (some { AudioContent := some [7] })) = .ok [7] :=
  ⟨(C10_empty_audio_is_success (.ok (some { AudioContent := some [] }))).2.2.2.1
      { AudioContent := some [] } rfl rfl,
   (C10_empty_audio_is_success (.ok (some { AudioContent := some [7] }))).2.2.2.2.1
      { AudioContent := some [7] } [7] rfl rfl (by decide)⟩

/-- C4: Single ingestion owner: when the session registered under `callSID`
already has its ingestion-active flag set, a further `StartAudioProcessing`
call returns the already-in-progress error, spawns no forwarder or receiver
goroutine, and leaves the registry state unchanged. -/
theorem C4_single_ingestion_owner (cm : ChannelManager) (callSID : String)
    (stt : Except Unit Unit) (ch : ChannelData)
    (hch : cm.GetChannels callSID = some ch)
    (hactive : ch.isProcessingAudio = true) :
    cm.StartAudioProcessing callSID stt = (.error .alreadyInProgress, cm, 0) := by
  simp [ChannelManager.StartAudioProcessing, hch, hactive]

/-- Witness for C4: a registry holding one session whose ingestion flag is
already set. -/
theorem C4_single_ingestion_owner_witness :
    ChannelManager.StartAudioProcessing
      { channels := fun s =>
          if s = "CA" then
            some { tag := 0, CallSID := "CA"
                   AudioInputChan := { cap := 100, items := [] }
                   TranscriptionChan := { cap := 10, items := [] }
                   ResponseTextChan := { cap := 10, items := [] }
                   ResponseAudioChan := { cap := 10, items := [] }
                   audioBuffer := [], isProcessingAudio := true }
          else none,
        nextTag := 1 } "CA" (.ok ())
      = (.error .alreadyInProgress,
         { channels := fun s =>
             if s = "CA" then
               some { tag := 0, CallSID := "CA"
                      AudioInputChan := { cap := 100, items := [] }
                      TranscriptionChan := { cap := 10, items := [] }
                      ResponseTextChan := { cap := 10, items := [] }
                      ResponseAudioChan := { cap := 10, items := [] }
                      audioBuffer := [], isProcessingAudio := true }
             else none,
           nextTag := 1 }, 0) :=
  C4_single_ingestion_owner _ "CA" (.ok ())
    { tag := 0, CallSID := "CA"
      AudioInputChan := { cap := 100, items := [] }
      TranscriptionChan := { cap := 10, items := [] }
      ResponseTextChan := { cap := 10, items := [] }
      ResponseAudioChan := { cap := 10, items := [] }
      audioBuffer := [], isProcessingAudio := true }
    (by simp [ChannelManager.GetChannels]) rfl

/-- C7: the `AppendAudioData` frame policy: empty frames leave the session
unchanged; a non-empty frame is appended when the inbound-audio queue has
room; on a full queue the oldest buffered frame is discarded to make room and
the new frame is enqueued on the retry; with no capacity at all (the queue
can never accept) the retries are exhausted and the new frame is dropped.
The retry loop is structurally bounded by its 3-attempt budget, so the
operation always terminates. -/
theorem C7_appendAudio_policy (cd : ChannelData) (data : List Byte) :
    (data = [] → cd.AppendAudioData data = cd) ∧
    (data ≠ [] → cd.AudioInputChan.items.length < cd.AudioInputChan.cap →
      (cd.AppendAudioData data).AudioInputChan.items
        = cd.AudioInputChan.items ++ [data]) ∧
    (data ≠ [] → cd.AudioInputChan.items.length = cd.AudioInputChan.cap →
      0 < cd.AudioInputChan.cap →
      (cd.AppendAudioData data).AudioInputChan.items
        = cd.AudioInputChan.items.tail ++ [data]) ∧
    (data ≠ [] → cd.AudioInputChan.cap = 0 → cd.AudioInputChan.items = [] →
      (cd.AppendAudioData data).AudioInputChan.items = []) := by
  have hlen : data ≠ [] → ¬data.length = 0 := by
    intro h; simpa [List.length_eq_zero] using h
  refine ⟨?_, ?_, ?_, ?_⟩
  · intro h
    simp [ChannelData.AppendAudioData, h]
  · intro h hroom
    simp [ChannelData.AppendAudioData, hlen h, appendAudioRetry, BQueue.trySend, hroom]
  · intro h hfull hpos
    obtain ⟨a, rest, hitems⟩ : ∃ a rest, cd.AudioInputChan.items = a :: rest := by
      match hx : cd.AudioInputChan.items with
      | [] => rw [hx] at hfull; simp at hfull; omega
      | a :: rest => exact ⟨a, rest, rfl⟩
    have hitems_len : cd.AudioInputChan.items.length = rest.length + 1 := by
      rw [hitems]; simp
    have hnotroom : ¬cd.AudioInputChan.items.length < cd.AudioInputChan.cap := by
      omega
    have hnotroom2 : ¬rest.length + 1 < cd.AudioInputChan.cap := by omega
    have hroom2 : rest.length < cd.AudioInputChan.cap := by omega
    simp [ChannelData.AppendAudioData, hlen h, appendAudioRetry, BQueue.trySend,
      BQueue.tryRecv, hnotroom, hitems, hroom2, hnotroom2]
  · intro h hcap hitems
    simp [ChannelData.AppendAudioData, hlen h, appendAudioRetry, BQueue.trySend,
      BQueue.tryRecv, hcap, hitems]

/-- Witness for C7 at concrete inputs: an empty frame on some queue, a
non-empty frame on a queue with room, a non-empty frame on a full queue, and
a non-empty frame on a zero-capacity queue. -/
theorem C7_appendAudio_policy_witness :
    (ChannelData.AppendAudioData
        { tag := 0, CallSID := "CA", AudioInputChan := { cap := 2, items := [[1]] },
          TranscriptionChan := { cap := 10, items := [] },
          ResponseTextChan := { cap := 10, items := [] },
          ResponseAudioChan := { cap := 10, items := [] },
          audioBuffer := [], isProcessingAudio := false } []
      = { tag := 0, CallSID := "CA", AudioInputChan := { cap := 2, items := [[1]] },
          TranscriptionChan := { cap := 10, items := [] },
          ResponseTextChan := { cap := 10, items := [] },
          ResponseAudioChan := { cap := 10, items := [] },
          audioBuffer := [], isProcessingAudio := false }) ∧
    ((ChannelData.AppendAudioData
        { tag := 0, CallSID := "CA", AudioInputChan := { cap := 2, items := [[1]] },
          TranscriptionChan := { cap := 10, items := [] },
          ResponseTextChan := { cap := 10, items := [] },
          ResponseAudioChan := { cap := 10, items := [] },
          audioBuffer := [], isProcessingAudio := false } [9]).AudioInputChan.items
      = [[1]] ++ [[9]]) ∧
    ((ChannelData.AppendAudioData
        { tag := 0, CallSID := "CA",
          AudioInputChan := { cap := 2, items := [[1], [2]] },
          TranscriptionChan := { cap := 10, items := [] },
          ResponseTextChan := { cap := 10, items := [] },
          ResponseAudioChan := { cap := 10, items := [] },
          audioBuffer := [], isProcessingAudio := false } [9]).AudioInputChan.items
      = [[1], [2]].tail ++ [[9]]) ∧
    ((ChannelData.AppendAudioData
        { tag := 0, CallSID := "CA", AudioInputChan := { cap := 0, items := [] },
          TranscriptionChan := { cap := 10, items := [] },
          ResponseTextChan := { cap := 10, items := [] },
          ResponseAudioChan := { cap := 10, items := [] },
          audioBuffer := [], isProcessingAudio := false } [9]).AudioInputChan.items
      = []) :=
  ⟨(C7_appendAudio_policy _ []).1 rfl,
   (C7_appendAudio_policy _ [9]).2.1 (by decide) (by decide),
   (C7_appendAudio_policy _ [9]).2.2.1 (by decide) (by decide) (by decide),
   (C7_appendAudio_policy _ [9]).2.2.2 (by decide) rfl rfl⟩

/-- The forwarding loop preserves the queue capacity and never grows the
buffer beyond it. -/
theorem forwardTranscriptions_bounded (incoming : List String) (q : BQueue String)
    (hq : q.items.length ≤ q.cap) :
    (forwardTranscriptions incoming q).items.length
        ≤ (forwardTranscriptions incoming q).cap
      ∧ (forwardTranscriptions incoming q).cap = q.cap := by
  induction incoming generalizing q with
  | nil => exact ⟨hq, rfl⟩
  | cons t rest ih =>
    have hstep : (forwardTranscriptionToChan q t).items.length
          ≤ (forwardTranscriptionToChan q t).cap
        ∧ (forwardTranscriptionToChan q t).cap = q.cap := by
      by_cases hroom : q.items.length < q.cap <;>
        simp [forwardTranscriptionToChan, BQueue.trySend, hroom] <;> omega
    have := ih (forwardTranscriptionToChan q t) hstep.1
    simpa [forwardTranscriptions, hstep.2] using
      ⟨this.1, this.2.trans hstep.2⟩

/-- C8: Non-blocking producers: the enqueue of a recognizer fragment onto the
transcript queue, of the reply text onto the outbound-text queue, and of the
synthesized audio onto the outbound-audio queue are all the total
(non-waiting) drop-newest operation: on a full queue the item is dropped and
the queue is unchanged, otherwise the item is appended; and the transcript
forwarding loop keeps the queue within its capacity however many fragments
arrive. -/
theorem C8_nonblocking_producers :
    (∀ (q : BQueue String) (t : String),
      (q.items.length < q.cap →
        forwardTranscriptionToChan q t = { q with items := q.items ++ [t] }) ∧
      (q.cap ≤ q.items.length → forwardTranscriptionToChan q t = q)) ∧
    (∀ (q : BQueue String) (r : String),
      (q.items.length < q.cap →
        sendResponseTextToChan q r = { q with items := q.items ++ [r] }) ∧
      (q.cap ≤ q.items.length → sendResponseTextToChan q r = q)) ∧
    (∀ (q : BQueue (List Byte)) (a : List Byte),
      (q.items.length < q.cap →
        sendResponseAudioToChan q a = { q with items := q.items ++ [a] }) ∧
      (q.cap ≤ q.items.length → sendResponseAudioToChan q a = q)) ∧
    (∀ (incoming : List String) (q : BQueue String),
      q.items.length ≤ q.cap →
      (forwardTranscriptions incoming q).items.length ≤ q.cap) := by
  refine ⟨?_, ?_, ?_, ?_⟩
  · intro q t
    refine ⟨fun h => ?_, fun h => ?_⟩
    · simp [forwardTranscriptionToChan, BQueue.trySend, h]
    · have hn : ¬q.items.length < q.cap := by omega
      simp [forwardTranscriptionToChan, BQueue.trySend, hn]
  · intro q r
    refine ⟨fun h => ?_, fun h => ?_⟩
    · simp [sendResponseTextToChan, BQueue.trySend, h]
    · have hn : ¬q.items.length < q.cap := by omega
      simp [sendResponseTextToChan, BQueue.trySend, hn]
  · intro q a
    refine ⟨fun h => ?_, fun h => ?_⟩
    · simp [sendResponseAudioToChan, BQueue.trySend, h]
    · have hn : ¬q.items.length < q.cap := by omega
      simp [sendResponseAudioToChan, BQueue.trySend, hn]
  · intro incoming q hq
    have h := forwardTranscriptions_bounded incoming q hq
    omega

/-- Witness for C8 at concrete inputs: a full queue drops the new item, a
queue with room appends it, and the loop respects the capacity bound. -/
theorem C8_nonblocking_producers_witness :
    forwardTranscriptionToChan { cap := 1, items := ["x"] } "y"
        = { cap := 1, items := ["x"] } ∧
    sendResponseTextToChan { cap := 2, items := ["x"] } "y"
        = { cap := 2, items := ["x", "y"] } ∧
    sendResponseAudioToChan { cap := 1, items := [[1]] } [2]
        = { cap := 1, items := [[1]] } ∧
    (forwardTranscriptions ["a", "b", "c"] { cap := 2, items := [] }).items.length ≤ 2 :=
  ⟨(C8_nonblocking_producers.1 { cap := 1, items := ["x"] } "y").2 (by decide),
   (C8_nonblocking_producers.2.1 { cap := 2, items := ["x"] } "y").1 (by decide),
   (C8_nonblocking_producers.2.2.1 { cap := 1, items := [[1]] } [2]).2 (by decide),
   C8_nonblocking_producers.2.2.2 ["a", "b", "c"] { cap := 2, items := [] } (by decide)⟩

/-- Joining the first `n` maximal slices of width `c` recovers the first
`n * c` elements. -/
theorem chunks_join_range (c : Nat) (l : List Byte) (n : Nat) :
    ((List.range n).map (fun i => (l.drop (i * c)).take c)).flatten = l.take (n * c) := by
  induction n with
  | zero => simp
  | succ n ih =>
    rw [List.range_succ, List.map_append, List.flatten_append, ih]
    have h := List.take_add l (n * c) c
    simp only [List.map_cons, List.map_nil, List.flatten_cons, List.flatten_nil,
      List.append_nil]
    rw [Nat.succ_mul, h]

/-- C2: Playback chunking: a payload of at most 3200 bytes is emitted as a
single chunk; a larger payload is cut into `⌈len/3200⌉` consecutive in-order
slices whose concatenation is the payload, all of size exactly 3200 except a
final remainder slice of size in `(0, 3200]`; an 8000-byte payload yields
exactly the chunk sizes `[3200, 3200, 1600]` in that order. -/
theorem C2_playback_chunking (payload : List Byte) :
    (payload.length ≤ 3200 → sendAudioChunks payload = [payload]) ∧
    (3200 < payload.length →
      (sendAudioChunks payload).flatten = payload ∧
      (sendAudioChunks payload).map List.length
        = List.replicate ((payload.length + 3199) / 3200 - 1) 3200
          ++ [payload.length - ((payload.length + 3199) / 3200 - 1) * 3200] ∧
      0 < payload.length - ((payload.length + 3199) / 3200 - 1) * 3200 ∧
      payload.length - ((payload.length + 3199) / 3200 - 1) * 3200 ≤ 3200) ∧
    (payload.length = 8000 →
      (sendAudioChunks payload).map List.length = [3200, 3200, 1600]) := by
  have main : 3200 < payload.length →
      (sendAudioChunks payload).flatten = payload ∧
      (sendAudioChunks payload).map List.length
        = List.replicate ((payload.length + 3199) / 3200 - 1) 3200
          ++ [payload.length - ((payload.length + 3199) / 3200 - 1) * 3200] ∧
      0 < payload.length - ((payload.length + 3199) / 3200 - 1) * 3200 ∧
      payload.length - ((payload.length + 3199) / 3200 - 1) * 3200 ≤ 3200 := by
    intro hbig
    have hn : ¬payload.length ≤ maxChunkSize := by
      simp only [maxChunkSize]; omega
    have hcover : payload.length ≤ ((payload.length + 3199) / 3200) * 3200 := by
      omega
    have hlast : ((payload.length + 3199) / 3200 - 1) * 3200 < payload.length := by
      omega
    refine ⟨?_, ?_, by omega, by omega⟩
    · rw [sendAudioChunks, if_neg hn]
      show ((List.range _).map fun i => (payload.drop (i * maxChunkSize)).take
        maxChunkSize).flatten = payload
      rw [chunks_join_range]
      exact List.take_of_length_le (by simpa [maxChunkSize] using hcover)
    · rw [sendAudioChunks, if_neg hn]
      have htc : (payload.length + maxChunkSize - 1) / maxChunkSize
          = ((payload.length + 3199) / 3200 - 1) + 1 := by
        simp only [maxChunkSize]; omega
      rw [List.map_map, htc, List.range_succ, List.map_append]
      have hrep : (List.range ((payload.length + 3199) / 3200 - 1)).map
            (List.length ∘ fun i => (payload.drop (i * maxChunkSize)).take maxChunkSize)
          = List.replicate ((payload.length + 3199) / 3200 - 1) 3200 := by
        rw [List.map_congr_left (g := fun _ => 3200) ?_]
        · simp [List.map_const', List.length_range]
        · intro i hi
          rw [List.mem_range] at hi
          simp only [Function.comp, List.length_take, List.length_drop, maxChunkSize]
          omega
      rw [hrep]
      simp only [List.map_cons, List.map_nil, Function.comp, List.length_take,
        List.length_drop, maxChunkSize]
      congr 1
      congr 1
      omega
  refine ⟨?_, main, ?_⟩
  · intro h
    have h2 : payload.length ≤ maxChunkSize := by simp only [maxChunkSize]; omega
    rw [sendAudioChunks, if_pos h2]
  · intro h8
    have hm := (main (by omega)).2.1
    rw [h8] at hm
    norm_num at hm
    simpa [List.replicate] using hm

/-- Witness for C2: an explicit 8000-byte payload splits into chunk sizes
`[3200, 3200, 1600]`, and a small payload stays whole. -/
theorem C2_playback_chunking_witness :
    (sendAudioChunks (List.replicate 8000 0)).map List.length = [3200, 3200, 1600] ∧
    sendAudioChunks [1, 2, 3] = [[1, 2, 3]] :=
  ⟨(C2_playback_chunking (List.replicate 8000 0)).2.2 (by rw [List.length_replicate]),
   (C2_playback_chunking [1, 2, 3]).1 (by simp)⟩

/-- C5: Synthesis failure resilience: when the synthesis engine call for a
finalized utterance errs, the caller turn and the assistant turn are still
recorded in the conversation history, nothing is handed to the playback
queue for that turn, and the orchestration goes on to process the next
utterance (whose turns are recorded in the same way) instead of
terminating. -/
theorem C5_synthesis_failure_resilience (st : OrchState) (u : String)
    (gemini : Except Unit String) (save : Bool) (e : Unit)
    (u2 : String) (g2 : Except Unit String) (t2 : Except Unit (List Byte))
    (s2 : Bool)
    (rest : List (String × Except Unit String × Except Unit (List Byte) × Bool)) :
    (processTranscription u gemini (.error e) save st).conversation
      = (st.conversation.AddUserMessage u).AddTherapistMessage
          (responseText gemini) ∧
    (processTranscription u gemini (.error e) save st).ResponseAudioChan
      = st.ResponseAudioChan ∧
    (processTranscription u2 g2 t2 s2
        (processTranscription u gemini (.error e) save st)).conversation
      = (((processTranscription u gemini (.error e) save st).conversation
          ).AddUserMessage u2).AddTherapistMessage (responseText g2) ∧
    processUtterances ((u, gemini, .error e, save) :: rest) st
      = processUtterances rest (processTranscription u gemini (.error e) save st) := by
  refine ⟨rfl, rfl, ?_, rfl⟩
  cases t2 <;> rfl

/-- C6 counterexample: when the reply engine succeeds with a candidate whose
first part is the empty string, `GenerateResponse` returns that empty string
with no error, and the orchestration records an empty assistant turn and
publishes the empty reply text — neither fallback is substituted, refuting
the claim that an error or an empty result always yields the fixed fallback
and that the recorded and published reply are never empty. -/
theorem C6_reply_fallback_counterexample :
    GenerateResponse (.ok { Candidates := [{ Parts := [""] }] }) = .ok "" ∧
    (processTranscription "hello"
        (GenerateResponse (.ok { Candidates := [{ Parts := [""] }] }))
        (.ok [1]) true
        { conversation := { ID := "CA", tag := 0, Messages := [] },
          ResponseTextChan := { cap := 10, items := [] },
          ResponseAudioChan := { cap := 10, items := [] } }).conversation.Messages
      = [{ Role := "user", Content := "hello" },
         { Role := "therapist", Content := "" }] ∧
    (processTranscription "hello"
        (GenerateResponse (.ok { Candidates := [{ Parts := [""] }] }))
        (.ok [1]) true
        { conversation := { ID := "CA", tag := 0, Messages := [] },
          ResponseTextChan := { cap := 10, items := [] },
          ResponseAudioChan := { cap := 10, items := [] } }).ResponseTextChan.items
      = [""] ∧
    ("" : String) ≠ geminiErrorFallback ∧
    ("" : String) ≠ geminiEmptyFallback := by
  refine ⟨rfl, by decide, by decide, by decide, by decide⟩

/-- C6 amended: the fallback substitution covers exactly the failure shapes
the code tests for: when the reply engine call errs the orchestration records
and publishes the fixed error fallback; when it succeeds with no candidates,
or with a first candidate having no parts, `GenerateResponse` substitutes the
fixed empty-result fallback, which the orchestration records and publishes;
both fallback strings are non-empty.  (A successful first part that is the
empty string is recorded and published as is — see the counterexample.) -/
theorem C6_reply_fallback_amended (api : Except Unit GenResponse)
    (st : OrchState) (u : String) (tts : Except Unit (List Byte)) (save : Bool) :
    (∀ e, api = .error e →
      (processTranscription u (GenerateResponse api) tts save st).conversation
        = (st.conversation.AddUserMessage u).AddTherapistMessage
            geminiErrorFallback) ∧
    (∀ resp, api = .ok resp → resp.Candidates = [] →
      (processTranscription u (GenerateResponse api) tts save st).conversation
        = (st.conversation.AddUserMessage u).AddTherapistMessage
            geminiEmptyFallback) ∧
    (∀ resp c others, api = .ok resp → resp.Candidates = c :: others →
      c.Parts = [] →
      (processTranscription u (GenerateResponse api) tts save st).conversation
        = (st.conversation.AddUserMessage u).AddTherapistMessage
            geminiEmptyFallback) ∧
    geminiErrorFallback ≠ "" ∧ geminiEmptyFallback ≠ "" := by
  refine ⟨?_, ?_, ?_, by decide, by decide⟩
  · intro e h
    cases tts <;>
      simp [h, GenerateResponse, processTranscription, responseText]
  · intro resp h hc
    cases tts <;>
      simp [h, GenerateResponse, processTranscription, responseText, hc]
  · intro resp c others h hc hp
    cases tts <;>
      simp [h, GenerateResponse, processTranscription, responseText, hc, hp]

/-- Witness for the amended C6 at concrete inputs: an engine error yields the
error fallback and an empty candidate list yields the empty-result
fallback. -/
theorem C6_reply_fallback_amended_witness :
    (processTranscription "hi" (GenerateResponse (.error ())) (.ok [1]) true
        { conversation := { ID := "CA", tag := 0, Messages := [] },
          ResponseTextChan := { cap := 10, items := [] },
          ResponseAudioChan := { cap := 10, items := [] } }).conversation
      = ((({ ID := "CA", tag := 0, Messages := [] } : Conversation
          ).AddUserMessage "hi").AddTherapistMessage geminiErrorFallback) ∧
    (processTranscription "hi" (GenerateResponse (.ok { Candidates := [] }))
        (.ok [1]) true
        { conversation := { ID := "CA", tag := 0, Messages := [] },
          ResponseTextChan := { cap := 10, items := [] },
          ResponseAudioChan := { cap := 10, items := [] } }).conversation
      = ((({ ID := "CA", tag := 0, Messages := [] } : Conversation
          ).AddUserMessage "hi").AddTherapistMessage geminiEmptyFallback) :=
  ⟨(C6_reply_fallback_amended (.error ()) _ "hi" (.ok [1]) true).1 () rfl,
   (C6_reply_fallback_amended (.ok { Candidates := [] }) _ "hi" (.ok [1]) true).2.1
      { Candidates := [] } rfl rfl⟩

/-- C3 counterexample: after recording a user message for call `CA`,
removing the session and creating it again, the conversation returned by
get-or-create for `CA` still holds the old history — nothing ever removes an
entry from the conversation registry, so the history after remove-then-create
is not empty, refuting the claim. -/
theorem C3_registry_identity_counterexample :
    ((registryScenario.1.GetOrCreateConversation "CA").2).GetFormattedHistory
      = ["User: hi"] ∧
    ((registryScenario.1.GetOrCreateConversation "CA").2).GetFormattedHistory
      ≠ ([] : List String) := by
  refine ⟨by decide, by decide⟩

/-- C3 amended: lookup after creation returns the created session instance;
repeating get-or-create for a conversation id returns the same conversation
instance and leaves the registry unchanged; remove-then-create yields a fresh
session instance (a new identity) with all four queues empty; but the
conversation history for that id is not cleared: whenever a conversation is
stored for the id, get-or-create returns exactly the stored conversation with
its history intact. -/
theorem C3_registry_identity_amended (cm : ChannelManager)
    (cs : ConversationService) (id : String) :
    ((cm.CreateChannels id).1.GetChannels id) = some (cm.CreateChannels id).2 ∧
    (((cs.GetOrCreateConversation id).1.GetOrCreateConversation id).2
        = (cs.GetOrCreateConversation id).2 ∧
     ((cs.GetOrCreateConversation id).1.GetOrCreateConversation id).1
        = (cs.GetOrCreateConversation id).1) ∧
    ((((cm.CreateChannels id).1.RemoveChannels id).CreateChannels id).2.tag
        ≠ (cm.CreateChannels id).2.tag ∧
     (((cm.CreateChannels id).1.RemoveChannels id).CreateChannels
        id).2.AudioInputChan.items = [] ∧
     (((cm.CreateChannels id).1.RemoveChannels id).CreateChannels
        id).2.TranscriptionChan.items = [] ∧
     (((cm.CreateChannels id).1.RemoveChannels id).CreateChannels
        id).2.ResponseTextChan.items = [] ∧
     (((cm.CreateChannels id).1.RemoveChannels id).CreateChannels
        id).2.ResponseAudioChan.items = []) ∧
    (∀ conv, cs.conversations id = some conv →
      cs.GetOrCreateConversation id = (cs, conv)) := by
  refine ⟨?_, ?_, ⟨?_, rfl, rfl, rfl, rfl⟩, ?_⟩
  · simp [ChannelManager.CreateChannels, ChannelManager.GetChannels]
  · unfold ConversationService.GetOrCreateConversation
    cases h : cs.conversations id <;> simp [h]
  · simp [ChannelManager.CreateChannels, ChannelManager.RemoveChannels]
  · intro conv h
    unfold ConversationService.GetOrCreateConversation
    rw [h]

/-- Witness for the amended C3: a conversation registry holding a
conversation with one recorded message for `CA` returns exactly that
conversation on get-or-create. -/
theorem C3_registry_identity_amended_witness :
    ConversationService.GetOrCreateConversation
      { conversations := fun s =>
          if s = "CA" then
            some { ID := "CA", tag := 0,
                   Messages := [{ Role := "user", Content := "hi" }] }
          else none,
        nextTag := 1 } "CA"
      = ({ conversations := fun s =>
             if s = "CA" then
               some { ID := "CA", tag := 0,
                      Messages := [{ Role := "user", Content := "hi" }] }
             else none,
           nextTag := 1 },
         { ID := "CA", tag := 0,
           Messages := [{ Role := "user", Content := "hi" }] }) :=
  (C3_registry_identity_amended ChannelManager.new _ "CA").2.2.2
    { ID := "CA", tag := 0, Messages := [{ Role := "user", Content := "hi" }] }
    (by simp)

/-- Unfolding one step of the segmentation loop. -/
theorem runSeg_cons (tb : TranscriptionBuffer) (now : Nat) (e : WSEvent)
    (rest : List (Nat × WSEvent)) :
    runSeg tb ((now, e) :: rest)
      = (segStep tb now e).2 ++ runSeg (segStep tb now e).1 rest := by
  simp [runSeg]

/-- With an empty buffer and no further fragments, the periodic check never
fires: ticks alone produce no finalization. -/
theorem runSeg_ticks_nil (tb : TranscriptionBuffer)
    (hemp : tb.Transcriptions = []) (t0 n : Nat) :
    runSeg tb (ticksFrom t0 n) = [] := by
  induction n generalizing t0 with
  | zero => simp [ticksFrom, runSeg]
  | succ n ih =>
    have hsp : tb.ShouldProcess t0 silenceDuration = false := by
      simp [TranscriptionBuffer.ShouldProcess, hemp]
    rw [ticksFrom, runSeg_cons]
    simp [segStep, hsp, ih]

/-- C1: Silence-based segmentation: with fragments delivered at t=0 and
t=1.5 s, a 2 s silence threshold and a 500 ms poll tick, and no further
fragments, finalization fires exactly once (the run produces a single
finalization), at a time at or after t=3.5 s (namely at the t=4 s tick, the
first tick strictly beyond the threshold), and the finalized utterance is the
t=1.5 s fragment, trimmed of surrounding whitespace. -/
theorem C1_silence_segmentation (s1 s2 : String) (n : Nat)
    (h1 : s1 ≠ "") (h2 : s2 ≠ "") :
    ∃ t, runSeg (NewTranscriptionBuffer 0) (silenceScenario s1 s2 n)
        = [(t, s2.trim)] ∧ 3500 ≤ t := by
  refine ⟨4000, ?_, by omega⟩
  have hsc : silenceScenario s1 s2 n
      = (0, WSEvent.fragment s1) :: (500, WSEvent.tick) :: (1000, WSEvent.tick)
        :: (1500, WSEvent.fragment s2) :: (1500, WSEvent.tick)
        :: (2000, WSEvent.tick) :: (2500, WSEvent.tick) :: (3000, WSEvent.tick)
        :: (3500, WSEvent.tick) :: (4000, WSEvent.tick) :: ticksFrom 4500 n := by
    simp [silenceScenario, ticksFrom]
  have htail : ∀ tb : TranscriptionBuffer, tb.Transcriptions = [] →
      runSeg tb (ticksFrom 4500 n) = [] :=
    fun tb h => runSeg_ticks_nil tb h 4500 n
  rw [hsc]
  simp [runSeg_cons, segStep, NewTranscriptionBuffer,
    TranscriptionBuffer.AddTranscription, TranscriptionBuffer.ShouldProcess,
    TranscriptionBuffer.StartProcessing, TranscriptionBuffer.FinishProcessing,
    TranscriptionBuffer.NormalizeTranscriptions, silenceDuration, h1, h2,
    List.getLast?, htail]

/-- Witness for C1 at concrete fragments: the run over the scenario trace
finalizes once with the trimmed second fragment. -/
theorem C1_silence_segmentation_witness :
    ∃ t, runSeg (NewTranscriptionBuffer 0) (silenceScenario "hello" " how are you " 0)
        = [(t, (" how are you " : String).trim)] ∧ 3500 ≤ t :=
  C1_silence_segmentation "hello" " how are you " 0 (by decide) (by decide)

end CallMeHelp
